import Mathlib

/-! Shallow embedding of `try-lazy-init` (src/lib.rs), a lazily-transformed
synchronized holder type `LazyTransform<T, U>` and its zero-argument wrapper
`Lazy<T>`.

Modelling choices:
* The cell state is `initialized : Bool` (the `AtomicBool`) together with
  `value : Option (ThisOrThat T U)` (the `UnsafeCell<Option<ThisOrThat<T, U>>>`).
  The `Mutex<()>` only serializes the slow path and carries no data, so it has
  no counterpart in this sequential model; operations are modelled as pure
  state transformers, corresponding to whole critical sections executed
  atomically.
* Rust panics (from `unwrap`, from the defensive `panic` macro calls, and from
  lock poisoning observed through `unwrap`) are modelled by the `panicked`
  constructor of `PanicOr`; a normal return is `PanicOr.ok`.
* Fallible closures `FnOnce(T) -> Result<U, E>` are modelled as functions
  `T → Except E U` with `Except.ok` for `Result::Ok` and `Except.error` for
  `Result::Err`. Cloning (`T: Clone`) is the identity in this value model.
-/

/-- Mirrors the private enum `ThisOrThat<T, U>` of src/lib.rs: `This(T)` holds
the untransformed precursor, `That(U)` holds the transformed result. -/
inductive ThisOrThat (T U : Type) where
  | This : T → ThisOrThat T U
  | That : U → ThisOrThat T U
deriving DecidableEq

/-- Result of running one operation of the Rust code: either a normal value or
a Rust panic (from `unwrap`, a defensive `panic` macro call, or a poisoned
lock). -/
inductive PanicOr (α : Type) where
  | panicked : PanicOr α
  | ok : α → PanicOr α
deriving DecidableEq

/-- Mirrors `LazyTransform<T, U>`: the `initialized: AtomicBool` flag and the
`value: UnsafeCell<Option<ThisOrThat<T, U>>>` slot. The data-free
`lock: Mutex<()>` is not represented (see module docstring). -/
structure LazyTransform (T U : Type) where
  initialized : Bool
  value : Option (ThisOrThat T U)
deriving DecidableEq

/-- Mirrors `LazyTransform::new`: `initialized = false`, slot holds
`This(t)`. -/
def LazyTransform.new {T U : Type} (t : T) : LazyTransform T U :=
  ⟨false, some (.This t)⟩

/-- Mirrors the private helper `LazyTransform::extract`: reads the slot,
returning `none` for an empty slot, the result for `That`, and panicking
(defensively) on `This`. -/
def LazyTransform.extract {T U : Type} (c : LazyTransform T U) :
    PanicOr (Option U) :=
  match c.value with
  | none => .ok none
  | some (.This _) => .panicked
  | some (.That u) => .ok (some u)

/-- Mirrors `LazyTransform::into_inner`: `self.value.into_inner().unwrap()`
panics on an empty (error-poisoned) slot, otherwise `This t` becomes `Err(t)`
and `That u` becomes `Ok(u)`. -/
def LazyTransform.into_inner {T U : Type} (c : LazyTransform T U) :
    PanicOr (Except T U) :=
  match c.value with
  | none => .panicked
  | some (.This t) => .ok (.error t)
  | some (.That u) => .ok (.ok u)

/-- Mirrors `LazyTransform::try_into_inner`: `None` becomes `Err(None)`,
`This t` becomes `Err(Some(t))`, `That u` becomes `Ok(u)`; never panics. -/
def LazyTransform.try_into_inner {T U : Type} (c : LazyTransform T U) :
    Except (Option T) U :=
  match c.value with
  | none => .error none
  | some (.This t) => .error (some t)
  | some (.That u) => .ok u

/-- Mirrors `LazyTransform::get`: acquire-load of `initialized`; if true,
`extract` (lock-free), else `None`. -/
def LazyTransform.get {T U : Type} (c : LazyTransform T U) :
    PanicOr (Option U) :=
  if c.initialized then LazyTransform.extract c else .ok none

/-- Mirrors `LazyTransform::get_or_create`: double-checked locking collapsed to
one atomic critical section. If uninitialized, `value.take().unwrap()` (panics
on an empty slot), defensive panic on `That`, otherwise store
`That (f t)` and set `initialized`; finally `extract().unwrap()`. -/
def LazyTransform.get_or_create {T U : Type} (c : LazyTransform T U)
    (f : T → U) : PanicOr (LazyTransform T U × U) :=
  if c.initialized then
    match LazyTransform.extract c with
    | .ok (some u) => .ok (c, u)
    | _ => .panicked
  else
    match c.value with
    | none => .panicked
    | some (.That _) => .panicked
    | some (.This t) =>
      let c' : LazyTransform T U := ⟨true, some (.That (f t))⟩
      match LazyTransform.extract c' with
      | .ok (some u) => .ok (c', u)
      | _ => .panicked

/-- Mirrors `LazyTransform::try_get_or_create`: the precursor is cloned out
without disturbing the slot (`value.as_ref().unwrap()`, panics on an empty
slot, defensive panic on `That`); if `f` fails, the `?` operator returns the
error with the cell untouched; on success store `That u`, set `initialized`,
then `extract().unwrap()`. -/
def LazyTransform.try_get_or_create {T U E : Type} (c : LazyTransform T U)
    (f : T → Except E U) : PanicOr (LazyTransform T U × Except E U) :=
  if c.initialized then
    match LazyTransform.extract c with
    | .ok (some u) => .ok (c, .ok u)
    | _ => .panicked
  else
    match c.value with
    | none => .panicked
    | some (.That _) => .panicked
    | some (.This t) =>
      match f t with
      | .error e => .ok (c, .error e)
      | .ok u =>
        let c' : LazyTransform T U := ⟨true, some (.That u)⟩
        match LazyTransform.extract c' with
        | .ok (some u') => .ok (c', .ok u')
        | _ => .panicked

/-- Mirrors `LazyTransform::get_or_create_or_poison`: `value.take()` empties
the slot first; an already-empty slot returns `Err(None)`; defensive panic on
`That`; if `f` fails the `?` operator returns `Err(Some e)` with the slot left
empty (poisoned); on success store `That u`, set `initialized`, then
`extract().unwrap()`. -/
def LazyTransform.get_or_create_or_poison {T U E : Type}
    (c : LazyTransform T U) (f : T → Except E U) :
    PanicOr (LazyTransform T U × Except (Option E) U) :=
  if c.initialized then
    match LazyTransform.extract c with
    | .ok (some u) => .ok (c, .ok u)
    | _ => .panicked
  else
    match c.value with
    | none => .ok ({ c with value := none }, .error none)
    | some (.That _) => .panicked
    | some (.This t) =>
      match f t with
      | .error e => .ok ({ c with value := none }, .error (some e))
      | .ok u =>
        let c' : LazyTransform T U := ⟨true, some (.That u)⟩
        match LazyTransform.extract c' with
        | .ok (some u') => .ok (c', .ok u')
        | _ => .panicked

/-- Mirrors `Clone::clone` for `LazyTransform`: if `initialized` is observed
true, build a cell with `initialized = true` and a clone of the slot;
otherwise take the lock and copy both fields as read under the lock. -/
def LazyTransform.clone {T U : Type} (c : LazyTransform T U) :
    LazyTransform T U :=
  if c.initialized then ⟨true, c.value⟩ else ⟨c.initialized, c.value⟩

/-- Mirrors `Clone::clone_from` for `LazyTransform`, faithfully including its
branch structure: it branches on `self.initialized` (the destination), copies
`source.value` into `self.value`, and in the first branch stores
`initialized = true` unconditionally; in the second branch it copies
`source.initialized`. -/
def LazyTransform.clone_from {T U : Type} (self source : LazyTransform T U) :
    LazyTransform T U :=
  if self.initialized then ⟨true, source.value⟩
  else ⟨source.initialized, source.value⟩

/-- Mirrors `impl Default for LazyTransform` where `T: Default`: the
environment-supplied `T::default()` value is passed as `dT`, and the body is
`LazyTransform::new(T::default())`. -/
def LazyTransform.default {T U : Type} (dT : T) : LazyTransform T U :=
  LazyTransform.new dT

/-- Mirrors `Lazy<T>`, a wrapper around `LazyTransform<(), T>`. -/
structure Lazy (T : Type) where
  inner : LazyTransform Unit T
deriving DecidableEq

/-- Mirrors `impl Default for Lazy<T>` (no `T: Default` bound):
`inner = LazyTransform::new(())`. -/
def Lazy.default (T : Type) : Lazy T :=
  ⟨LazyTransform.new ()⟩

/-- Mirrors `Lazy::new`: `Self::default()`. -/
def Lazy.new (T : Type) : Lazy T :=
  Lazy.default T

/-- Mirrors `Lazy::into_inner`: `self.inner.into_inner().ok()`. -/
def Lazy.into_inner {T : Type} (l : Lazy T) : PanicOr (Option T) :=
  match LazyTransform.into_inner l.inner with
  | .panicked => .panicked
  | .ok (.ok u) => .ok (some u)
  | .ok (.error _) => .ok none

/-- Mirrors `Lazy::get`: delegates to `LazyTransform::get`. -/
def Lazy.get {T : Type} (l : Lazy T) : PanicOr (Option T) :=
  LazyTransform.get l.inner

/-- Mirrors `Lazy::get_or_create`: delegates with the adapter `|_| f()`. -/
def Lazy.get_or_create {T : Type} (l : Lazy T) (f : Unit → T) :
    PanicOr (Lazy T × T) :=
  match LazyTransform.get_or_create l.inner (fun _ => f ()) with
  | .panicked => .panicked
  | .ok (c, u) => .ok (⟨c⟩, u)

/-- Mirrors `Lazy::try_get_or_create`: delegates with the adapter `|_| f()`. -/
def Lazy.try_get_or_create {T E : Type} (l : Lazy T) (f : Unit → Except E T) :
    PanicOr (Lazy T × Except E T) :=
  match LazyTransform.try_get_or_create l.inner (fun _ => f ()) with
  | .panicked => .panicked
  | .ok (c, r) => .ok (⟨c⟩, r)

/-- State predicate: the cell is untransformed and still holds the precursor
`t` (the state produced by `new t`, spec state `Precursor(T)`). -/
def LazyTransform.Untransformed {T U : Type} (c : LazyTransform T U)
    (t : T) : Prop :=
  c = ⟨false, some (.This t)⟩

/-- State predicate: the cell has been transformed to the result `u` (spec
state `Result(U)`). -/
def LazyTransform.Transformed {T U : Type} (c : LazyTransform T U)
    (u : U) : Prop :=
  c = ⟨true, some (.That u)⟩

/-- State predicate: the cell was poisoned by an error during
`get_or_create_or_poison` (spec state `Empty`). -/
def LazyTransform.Poisoned {T U : Type} (c : LazyTransform T U) : Prop :=
  c = ⟨false, none⟩

/-- The reachable cell states: untransformed, transformed, or
error-poisoned. -/
def LazyTransform.Reachable {T U : Type} (c : LazyTransform T U) : Prop :=
  (∃ t, LazyTransform.Untransformed c t) ∨
    (∃ u, LazyTransform.Transformed c u) ∨ LazyTransform.Poisoned c

/-- Invariant I1 of the spec: `initialized = true` iff the slot holds a
transformed `That` value. -/
def LazyTransform.I1 {T U : Type} (c : LazyTransform T U) : Prop :=
  c.initialized = true ↔ ∃ u, c.value = some (.That u)

/-- The reachable states of a `Lazy` cell: freshly constructed or
initialized. `Lazy` exposes no poisoning accessor, so its inner cell is never
error-poisoned. -/
def Lazy.Reachable {T : Type} (l : Lazy T) : Prop :=
  l.inner = LazyTransform.new () ∨ ∃ v, LazyTransform.Transformed l.inner v

/-- A successful run of one of the three initializing accessors carried `c₀`
to `c` and returned the result `u`. This is the hypothesis "some initializing
accessor has succeeded on the cell". -/
def LazyTransform.SucceededTo {T U E : Type} (c₀ c : LazyTransform T U)
    (u : U) : Prop :=
  (∃ f : T → U, c₀.get_or_create f = .ok (c, u)) ∨
    (∃ f : T → Except E U, c₀.try_get_or_create f = .ok (c, .ok u)) ∨
      (∃ f : T → Except E U, c₀.get_or_create_or_poison f = .ok (c, .ok u))

theorem LazyTransform.get_or_create_ok_transformed {T U : Type}
    {c₀ c : LazyTransform T U} {f : T → U} {u : U}
    (h : c₀.get_or_create f = .ok (c, u)) : c.Transformed u := by
  obtain ⟨b, v⟩ := c₀
  cases b <;> rcases v with _ | t | u'
  · simp [LazyTransform.get_or_create] at h
  · simp [LazyTransform.get_or_create, LazyTransform.extract] at h
    obtain ⟨rfl, rfl⟩ := h
    rfl
  · simp [LazyTransform.get_or_create, LazyTransform.extract] at h
  · simp [LazyTransform.get_or_create, LazyTransform.extract] at h
  · simp [LazyTransform.get_or_create, LazyTransform.extract] at h
  · simp [LazyTransform.get_or_create, LazyTransform.extract] at h
    obtain ⟨rfl, rfl⟩ := h
    rfl

theorem LazyTransform.try_get_or_create_ok_transformed {T U E : Type}
    {c₀ c : LazyTransform T U} {f : T → Except E U} {u : U}
    (h : c₀.try_get_or_create f = .ok (c, .ok u)) : c.Transformed u := by
  obtain ⟨b, v⟩ := c₀
  cases b <;> rcases v with _ | t | u'
  · simp [LazyTransform.try_get_or_create] at h
  · simp only [LazyTransform.try_get_or_create, LazyTransform.extract] at h
    rcases hf : f t with e | u'' <;> rw [hf] at h
    · simp at h
    · simp at h
      obtain ⟨rfl, rfl⟩ := h
      rfl
  · simp [LazyTransform.try_get_or_create, LazyTransform.extract] at h
  · simp [LazyTransform.try_get_or_create, LazyTransform.extract] at h
  · simp [LazyTransform.try_get_or_create, LazyTransform.extract] at h
  · simp [LazyTransform.try_get_or_create, LazyTransform.extract] at h
    obtain ⟨rfl, rfl⟩ := h
    rfl

theorem LazyTransform.get_or_create_or_poison_ok_transformed {T U E : Type}
    {c₀ c : LazyTransform T U} {f : T → Except E U} {u : U}
    (h : c₀.get_or_create_or_poison f = .ok (c, .ok u)) : c.Transformed u := by
  obtain ⟨b, v⟩ := c₀
  cases b <;> rcases v with _ | t | u'
  · simp [LazyTransform.get_or_create_or_poison] at h
  · simp only [LazyTransform.get_or_create_or_poison,
      LazyTransform.extract] at h
    rcases hf : f t with e | u'' <;> rw [hf] at h
    · simp at h
    · simp at h
      obtain ⟨rfl, rfl⟩ := h
      rfl
  · simp [LazyTransform.get_or_create_or_poison, LazyTransform.extract] at h
  · simp [LazyTransform.get_or_create_or_poison, LazyTransform.extract] at h
  · simp [LazyTransform.get_or_create_or_poison, LazyTransform.extract] at h
  · simp [LazyTransform.get_or_create_or_poison, LazyTransform.extract] at h
    obtain ⟨rfl, rfl⟩ := h
    rfl

theorem LazyTransform.get_or_create_transformed {T U : Type} (u : U)
    (f : T → U) :
    LazyTransform.get_or_create (⟨true, some (.That u)⟩ : LazyTransform T U) f
      = .ok (⟨true, some (.That u)⟩, u) := rfl

theorem LazyTransform.try_get_or_create_transformed {T U E : Type} (u : U)
    (f : T → Except E U) :
    LazyTransform.try_get_or_create
        (⟨true, some (.That u)⟩ : LazyTransform T U) f
      = .ok (⟨true, some (.That u)⟩, .ok u) := rfl

theorem LazyTransform.get_or_create_or_poison_transformed {T U E : Type}
    (u : U) (f : T → Except E U) :
    LazyTransform.get_or_create_or_poison
        (⟨true, some (.That u)⟩ : LazyTransform T U) f
      = .ok (⟨true, some (.That u)⟩, .ok u) := rfl

/-- C1: once any initializing accessor (`get_or_create`, `try_get_or_create`,
or `get_or_create_or_poison`) has succeeded on a cell, the cell is
transformed, and every later call to any initializing accessor leaves the
state unchanged and returns the one existing result — the returned value and
state do not depend on the supplied closure at all, so no later call invokes
its closure successfully (at most one successful transform per cell). -/
theorem transform_runs_at_most_once {T U E : Type} (c₀ c : LazyTransform T U)
    (u : U) (hsucc : LazyTransform.SucceededTo (E := E) c₀ c u) :
    c.Transformed u ∧
      (∀ f : T → U, c.get_or_create f = .ok (c, u)) ∧
      (∀ f : T → Except E U, c.try_get_or_create f = .ok (c, .ok u)) ∧
      (∀ f : T → Except E U, c.get_or_create_or_poison f = .ok (c, .ok u)) := by
  have htr : c.Transformed u := by
    rcases hsucc with ⟨f, hf⟩ | ⟨f, hf⟩ | ⟨f, hf⟩
    · exact LazyTransform.get_or_create_ok_transformed hf
    · exact LazyTransform.try_get_or_create_ok_transformed hf
    · exact LazyTransform.get_or_create_or_poison_ok_transformed hf
  rw [LazyTransform.Transformed] at htr
  subst htr
  exact ⟨rfl, fun f => LazyTransform.get_or_create_transformed u f,
    fun f => LazyTransform.try_get_or_create_transformed u f,
    fun f => LazyTransform.get_or_create_or_poison_transformed u f⟩

/-- Witness for C1 at concrete inputs: `new 0` transformed by `t + 42`. -/
theorem transform_runs_at_most_once_witness :
    LazyTransform.Transformed (⟨true, some (.That 42)⟩ : LazyTransform Nat Nat)
        42 ∧
      LazyTransform.get_or_create
          (⟨true, some (.That 42)⟩ : LazyTransform Nat Nat) (fun t => t + 1)
        = .ok (⟨true, some (.That 42)⟩, 42) := by
  have h := transform_runs_at_most_once (E := Nat) (LazyTransform.new 0)
    ⟨true, some (.That 42)⟩ 42 (Or.inl ⟨fun t => t + 42, by decide⟩)
  exact ⟨h.1, h.2.1 (fun t => t + 1)⟩

/-- C2: if a call to `get_or_create_or_poison` returns `Err(Some e)` (its
closure returned an error), the resulting cell is poisoned: the precursor has
been consumed (the slot is empty), every later `get_or_create_or_poison`
short-circuits to `Err(None)` leaving the state unchanged and without
invoking its closure (the result does not depend on `g`), the other two
initializing accessors panic without invoking their closures, `get` still
returns nothing, and the cell is never in a transformed state. -/
theorem error_poisoning_is_permanent {T U E : Type} {c c' : LazyTransform T U}
    {f : T → Except E U} {e : E}
    (h : c.get_or_create_or_poison f = .ok (c', .error (some e))) :
    c'.Poisoned ∧ c'.value = none ∧
      (∀ g : T → Except E U,
        c'.get_or_create_or_poison g = .ok (c', .error none)) ∧
      (∀ g : T → Except E U, c'.try_get_or_create g = .panicked) ∧
      (∀ g : T → U, c'.get_or_create g = .panicked) ∧
      c'.get = .ok none ∧
      (∀ u : U, ¬ c'.Transformed u) := by
  obtain ⟨b, v⟩ := c
  cases b <;> rcases v with _ | t | u'
  · simp [LazyTransform.get_or_create_or_poison] at h
  · simp only [LazyTransform.get_or_create_or_poison,
      LazyTransform.extract] at h
    rcases hf : f t with e' | u'' <;> rw [hf] at h
    · simp at h
      obtain ⟨rfl, rfl⟩ := h
      refine ⟨rfl, rfl, fun g => rfl, fun g => rfl, fun g => rfl, rfl, ?_⟩
      simp [LazyTransform.Transformed]
    · simp at h
  · simp [LazyTransform.get_or_create_or_poison, LazyTransform.extract] at h
  · simp [LazyTransform.get_or_create_or_poison, LazyTransform.extract] at h
  · simp [LazyTransform.get_or_create_or_poison, LazyTransform.extract] at h
  · simp [LazyTransform.get_or_create_or_poison, LazyTransform.extract] at h

/-- Witness for C2: poisoning `new 0` with a failing closure, then observing
the poisoned state and the `Err(None)` short-circuit. -/
theorem error_poisoning_is_permanent_witness :
    LazyTransform.Poisoned (⟨false, none⟩ : LazyTransform Nat Nat) ∧
      LazyTransform.get_or_create_or_poison
          (⟨false, none⟩ : LazyTransform Nat Nat)
          (fun n => (.ok n : Except Nat Nat))
        = .ok (⟨false, none⟩, .error none) := by
  have h := @error_poisoning_is_permanent Nat Nat Nat (LazyTransform.new 0)
    ⟨false, none⟩ (fun _ => (.error 7 : Except Nat Nat)) 7 rfl
  exact ⟨h.1, h.2.2.1 (fun n => (.ok n : Except Nat Nat))⟩

/-- C3: on an untransformed cell holding precursor `t`, a `try_get_or_create`
whose closure fails with `e` returns exactly that error and leaves the cell
unchanged (`get` still returns nothing and the slot still holds the original
precursor `t`); a subsequent `try_get_or_create` whose closure succeeds — or
any `get_or_create` — completes initialization normally, with the closure
receiving the original precursor `t`. -/
theorem try_failure_atomic_and_retryable {T U E : Type}
    {c : LazyTransform T U} {t : T} {f g : T → Except E U} {e : E} {u : U}
    (hc : c.Untransformed t) (hf : f t = .error e) (hg : g t = .ok u) :
    c.try_get_or_create f = .ok (c, .error e) ∧
      c.get = .ok none ∧
      c.value = some (.This t) ∧
      c.try_get_or_create g = .ok (⟨true, some (.That u)⟩, .ok u) ∧
      (∀ h' : T → U,
        c.get_or_create h' = .ok (⟨true, some (.That (h' t))⟩, h' t)) := by
  obtain rfl : c = ⟨false, some (.This t)⟩ := hc
  refine ⟨?_, rfl, rfl, ?_, fun h' => rfl⟩
  · simp [LazyTransform.try_get_or_create, hf]
  · simp [LazyTransform.try_get_or_create, LazyTransform.extract, hg]

/-- Witness for C3: a failed then a successful attempt on `new 5`. -/
theorem try_failure_atomic_and_retryable_witness :
    LazyTransform.try_get_or_create (LazyTransform.new 5)
        (fun _ => (.error 9 : Except Nat Nat))
      = .ok (LazyTransform.new 5, .error 9) ∧
      LazyTransform.try_get_or_create (LazyTransform.new 5)
          (fun n => (.ok (n * 2) : Except Nat Nat))
        = .ok (⟨true, some (.That 10)⟩, .ok 10) := by
  have h := try_failure_atomic_and_retryable (c := LazyTransform.new 5)
    (t := 5) (f := fun _ => (.error 9 : Except Nat Nat))
    (g := fun n => .ok (n * 2)) (e := 9) (u := 10) rfl rfl rfl
  exact ⟨h.1, h.2.2.2.1⟩

/-- C4 (code bug): invariant I1 is NOT preserved by `clone_from`. Starting
from a transformed destination (reached by `get_or_create` from `new 0`) and
an untransformed source `new 5` — both satisfying I1 — `clone_from` branches
on the destination's `initialized` flag, copies the source's untransformed
slot, and stores `initialized = true` unconditionally, producing a cell with
`initialized = true` whose slot holds a precursor, which violates I1. -/
theorem clone_from_violates_I1 :
    LazyTransform.get_or_create (LazyTransform.new 0) (fun n => n + 1)
        = .ok (⟨true, some (.That 1)⟩, 1) ∧
      LazyTransform.I1 (⟨true, some (.That 1)⟩ : LazyTransform Nat Nat) ∧
      LazyTransform.I1 (LazyTransform.new (U := Nat) 5) ∧
      LazyTransform.clone_from (⟨true, some (.That 1)⟩ : LazyTransform Nat Nat)
          (LazyTransform.new 5)
        = ⟨true, some (.This 5)⟩ ∧
      ¬ LazyTransform.I1
          (LazyTransform.clone_from
            (⟨true, some (.That 1)⟩ : LazyTransform Nat Nat)
            (LazyTransform.new 5)) := by
  refine ⟨by decide, ?_, ?_, by decide, ?_⟩
  · simp [LazyTransform.I1]
  · simp [LazyTransform.I1, LazyTransform.new]
  · simp [LazyTransform.I1, LazyTransform.clone_from, LazyTransform.new]

/-- C5 (code bug): `clone` does leave the copy in the same state as its
source (shown here for a transformed and an untransformed cell), but
`clone_from` does not follow the same two branches: overwriting a transformed
destination from an untransformed source `new 5` leaves the destination in a
state different from the source — an `initialized = true` cell still holding
the precursor — on which `get` panics instead of returning the source's
untransformed state. -/
theorem clone_from_breaks_clone_fidelity :
    LazyTransform.clone (⟨true, some (.That 1)⟩ : LazyTransform Nat Nat)
        = ⟨true, some (.That 1)⟩ ∧
      LazyTransform.clone (LazyTransform.new (U := Nat) 5)
        = LazyTransform.new 5 ∧
      LazyTransform.Untransformed (LazyTransform.new (U := Nat) 5) 5 ∧
      LazyTransform.clone_from (⟨true, some (.That 1)⟩ : LazyTransform Nat Nat)
          (LazyTransform.new 5)
        ≠ LazyTransform.new 5 ∧
      ¬ LazyTransform.Untransformed
          (LazyTransform.clone_from
            (⟨true, some (.That 1)⟩ : LazyTransform Nat Nat)
            (LazyTransform.new 5)) 5 ∧
      LazyTransform.get
          (LazyTransform.clone_from
            (⟨true, some (.That 1)⟩ : LazyTransform Nat Nat)
            (LazyTransform.new 5))
        = .panicked := by
  refine ⟨rfl, rfl, rfl, by decide, ?_, rfl⟩
  simp [LazyTransform.Untransformed, LazyTransform.clone_from,
    LazyTransform.new]

/-- C6 counterexample: a cell error-poisoned through
`get_or_create_or_poison` (a reachable state, exhibited concretely from
`new 0`) satisfies invariant I1, was never transformed, and yet `into_inner`
panics on it — refuting both "returns `Err(t)` if never transformed" and
"never panics except when I1 is violated". -/
theorem into_inner_panics_despite_I1 :
    LazyTransform.get_or_create_or_poison (LazyTransform.new 0)
        (fun _ => (.error 7 : Except Nat Nat))
      = .ok (⟨false, none⟩, .error (some 7)) ∧
      LazyTransform.I1 (⟨false, none⟩ : LazyTransform Nat Nat) ∧
      LazyTransform.into_inner (⟨false, none⟩ : LazyTransform Nat Nat)
        = .panicked := by
  refine ⟨rfl, ?_, rfl⟩
  simp [LazyTransform.I1]

/-- C6 as amended: on every reachable cell, `into_inner` returns `Ok u` when
the cell is transformed to `u`, returns `Err t` exactly when the cell is
untransformed and still holds the precursor `t` (unchanged), and panics
exactly on the error-poisoned state — a state on which I1 still holds. -/
theorem into_inner_characterization {T U : Type} (c : LazyTransform T U)
    (h : c.Reachable) :
    (∀ u, c.Transformed u → c.into_inner = .ok (.ok u)) ∧
      (∀ t, c.Untransformed t → c.into_inner = .ok (.error t)) ∧
      ((∃ t, c.into_inner = .ok (.error t)) ↔ ∃ t, c.Untransformed t) ∧
      (c.into_inner = .panicked ↔ c.Poisoned) := by
  simp only [LazyTransform.Reachable, LazyTransform.Untransformed,
    LazyTransform.Transformed, LazyTransform.Poisoned] at h
  rcases h with ⟨t, rfl⟩ | ⟨u, rfl⟩ | rfl <;>
    simp [LazyTransform.into_inner, LazyTransform.Transformed,
      LazyTransform.Untransformed, LazyTransform.Poisoned]

/-- Witness for C6's amended theorem: the untransformed cell `new 3` gives
back its precursor. -/
theorem into_inner_characterization_witness :
    LazyTransform.into_inner (LazyTransform.new (U := Nat) 3)
      = .ok (.error 3) :=
  (into_inner_characterization (LazyTransform.new 3)
    (Or.inl ⟨3, rfl⟩)).2.1 3 rfl

/-- C7: on every reachable cell, `try_into_inner` distinguishes exactly the
three final states: it returns `Ok u` exactly when the cell is transformed to
`u`, `Err (Some t)` exactly when the cell is untransformed and still holds the
original precursor `t` (a transform never attempted or only failed without
poisoning), and `Err None` exactly when the cell was error-poisoned by
`get_or_create_or_poison`. -/
theorem try_into_inner_three_states {T U : Type} (c : LazyTransform T U)
    (h : c.Reachable) :
    (∀ u, c.try_into_inner = .ok u ↔ c.Transformed u) ∧
      (∀ t, c.try_into_inner = .error (some t) ↔ c.Untransformed t) ∧
      (c.try_into_inner = .error none ↔ c.Poisoned) := by
  simp only [LazyTransform.Reachable, LazyTransform.Untransformed,
    LazyTransform.Transformed, LazyTransform.Poisoned] at h
  rcases h with ⟨t, rfl⟩ | ⟨u, rfl⟩ | rfl <;>
    simp [LazyTransform.try_into_inner, LazyTransform.Transformed,
      LazyTransform.Untransformed, LazyTransform.Poisoned]

/-- Witness for C7 at the error-poisoned cell. -/
theorem try_into_inner_three_states_witness :
    LazyTransform.try_into_inner (⟨false, none⟩ : LazyTransform Nat Nat)
      = .error none :=
  (try_into_inner_three_states ⟨false, none⟩ (Or.inr (Or.inr rfl))).2.2.mpr rfl

/-- C8: on every reachable cell, `get` returns the stored transformed result
exactly when the cell is transformed, and returns nothing on an untransformed
cell (as freshly constructed, or after a failed non-poisoning attempt, which
by C3 leaves the cell untransformed) and on an error-poisoned cell; it never
panics on reachable states. `get` takes no closure and is modelled as a pure
function of the cell state that returns no new state (the Rust method writes
nothing), so repeated calls are side-effect-free and deterministic. -/
theorem get_iff_transformed {T U : Type} (c : LazyTransform T U)
    (h : c.Reachable) :
    (∀ u, c.get = .ok (some u) ↔ c.Transformed u) ∧
      (∀ t, c.Untransformed t → c.get = .ok none) ∧
      (c.Poisoned → c.get = .ok none) ∧
      c.get ≠ .panicked := by
  simp only [LazyTransform.Reachable, LazyTransform.Untransformed,
    LazyTransform.Transformed, LazyTransform.Poisoned] at h
  rcases h with ⟨t, rfl⟩ | ⟨u, rfl⟩ | rfl <;>
    simp [LazyTransform.get, LazyTransform.extract, LazyTransform.Transformed,
      LazyTransform.Untransformed, LazyTransform.Poisoned]

/-- Witness for C8 at a transformed cell. -/
theorem get_iff_transformed_witness :
    LazyTransform.get (⟨true, some (.That 42)⟩ : LazyTransform Nat Nat)
      = .ok (some 42) :=
  ((get_iff_transformed ⟨true, some (.That 42)⟩
    (Or.inr (Or.inl ⟨42, rfl⟩))).1 42).mpr rfl

/-- C9: `LazyTransform`'s `Default` (with the environment-supplied
`T::default()` value `dT`) is exactly `new dT`; `Lazy::new` is
`Lazy::default`, which exists for an arbitrary type `S` with no
default-constructibility requirement (no constraint on `S` appears), wraps
`LazyTransform.new ()`, and yields an uninitialized cell on which `get`
returns nothing. -/
theorem default_construction {T U S : Type} (dT : T) :
    (LazyTransform.default dT : LazyTransform T U) = LazyTransform.new dT ∧
      Lazy.new S = Lazy.default S ∧
      (Lazy.new S).inner = LazyTransform.new () ∧
      Lazy.get (Lazy.new S) = .ok none :=
  ⟨rfl, rfl, rfl, rfl⟩

/-- C10: on every reachable `Lazy` cell (`Lazy` exposes no poisoning
accessor, so its inner cell is never error-poisoned), `into_inner` returns
the initialized value `v` exactly when the cell has been initialized to `v`,
returns nothing when the cell was never initialized (discarding only the unit
precursor), and never panics. -/
theorem lazy_into_inner_iff_initialized {T : Type} (l : Lazy T)
    (h : l.Reachable) :
    (∀ v, l.into_inner = .ok (some v) ↔ LazyTransform.Transformed l.inner v) ∧
      (l.inner = LazyTransform.new () → l.into_inner = .ok none) ∧
      l.into_inner ≠ .panicked := by
  obtain ⟨inner⟩ := l
  simp only [Lazy.Reachable, LazyTransform.Transformed,
    LazyTransform.new] at h
  rcases h with rfl | ⟨v, rfl⟩ <;>
    simp [Lazy.into_inner, LazyTransform.into_inner, LazyTransform.new,
      LazyTransform.Transformed]

/-- Witness for C10 at a freshly constructed `Lazy`. -/
theorem lazy_into_inner_iff_initialized_witness :
    Lazy.into_inner (Lazy.new Nat) = .ok none :=
  (lazy_into_inner_iff_initialized (Lazy.new Nat) (Or.inl rfl)).2.1 rfl

/-- Witness for C9 at concrete types. -/
theorem default_construction_witness :
    (LazyTransform.default 0 : LazyTransform Nat Nat) = LazyTransform.new 0 ∧
      Lazy.get (Lazy.new Nat) = .ok none :=
  ⟨(default_construction (U := Nat) (S := Nat) 0).1,
   (default_construction (T := Nat) (U := Nat) (S := Nat) 0).2.2.2⟩
